import Mathlib

/-!
Verification development for the Copernicus time-series-to-raster reduction
engine of `src/Python/process_copernicus.py` (class `CopernicusProcessor` and
the orchestrator `batch_process_netcdfs`).

The embedding has three facets, each translated from the source:

* `Copernicus.Reducer` — the value-level temporal reducers `get_max`,
  `get_min`, `get_range`.  A variable is a list of (calendar-year, grid)
  time samples; grid cells hold exact rationals (modelling the finite float
  values the code manipulates; NaN/Inf are not representable here).
* `Copernicus.Derived` — the derived-quantity computer
  `speed_from_components`, over coordinate-labelled real-valued arrays, with
  xarray's inner-join alignment semantics for binary arithmetic.
* `Copernicus.Proc` — the metadata level (dimension names and sizes,
  x-coordinates, CRS tag) of the processor together with the raster exporter
  `dataarray_to_geotiff` and the batch orchestrator `batch_process_netcdfs`,
  which are pure control flow over that metadata.
-/

namespace Copernicus

/-- Generic test on an `Except` value: `true` exactly when it is `.ok`.
Mirrors "the Python call returned without raising". -/
def exceptIsOk {α : Type} : Except String α → Bool
  | .ok _ => true
  | .error _ => false

namespace Reducer

/-- One variable of the gridded dataset: a time series of grids.  Each sample
is `(year, grid)` where `year` is the calendar year carried by the time
coordinate (the code derives it via `data.time.dt.year`) and `grid` gives the
cell values at that instant.  Cells are exact rationals. -/
structure TimeSeries (Cell : Type) where
  samples : List (Int × (Cell → ℚ))

/-- The dataset as seen by the reducers: variable name to time series. -/
abbrev RDataset (Cell : Type) := List (String × TimeSeries Cell)

/-- `CopernicusProcessor.get_variable_data`: return `self.dataset[name]`,
raising `ValueError` when the variable is absent. -/
def get_variable_data {Cell : Type} (ds : RDataset Cell) (variable_name : String) :
    Except String (TimeSeries Cell) :=
  match ds.lookup variable_name with
  | some a => .ok a
  | none => .error ("Variable " ++ variable_name ++ " not found in dataset.")

/-- Maximum of a list of rationals (the value of `max(dim='time')` at one
cell).  The `[]` case is never reached on a nonempty time axis. -/
def listMax : List ℚ → ℚ
  | [] => 0
  | x :: xs => xs.foldl max x

/-- Minimum of a list of rationals (the value of `min(dim='time')` at one
cell). -/
def listMin : List ℚ → ℚ
  | [] => 0
  | x :: xs => xs.foldl min x

/-- The sequence of values one cell takes along the time axis. -/
def cellSeries {Cell : Type} (ts : TimeSeries Cell) (c : Cell) : List ℚ :=
  ts.samples.map (fun p => p.2 c)

/-- `CopernicusProcessor.get_max`: fetch the variable, then collapse the time
axis with `data.max(dim='time')`, elementwise. -/
def get_max {Cell : Type} (ds : RDataset Cell) (variable_name : String) :
    Except String (Cell → ℚ) :=
  match get_variable_data ds variable_name with
  | .error e => .error e
  | .ok data => .ok (fun c => listMax (cellSeries data c))

/-- `CopernicusProcessor.get_min`: fetch the variable, then collapse the time
axis with `data.min(dim='time')`, elementwise. -/
def get_min {Cell : Type} (ds : RDataset Cell) (variable_name : String) :
    Except String (Cell → ℚ) :=
  match get_variable_data ds variable_name with
  | .error e => .error e
  | .ok data => .ok (fun c => listMin (cellSeries data c))

/-- `np.unique(data.time.dt.year.values)`: the sorted deduplicated list of
calendar years of the samples. -/
def uniqueYears {Cell : Type} (ts : TimeSeries Cell) : List Int :=
  ((ts.samples.map Prod.fst).insertionSort (· ≤ ·)).dedup

/-- `data.sel(time=data.time.dt.year == year)`: the sub-series of samples that
fall in `year`. -/
def yearSamples {Cell : Type} (ts : TimeSeries Cell) (year : Int) : TimeSeries Cell :=
  ⟨ts.samples.filter (fun p => p.1 = year)⟩

/-- `CopernicusProcessor.get_range` (Bio-Oracle logic): for each unique year,
`np.abs(year_data.max(dim='time') - year_data.min(dim='time'))` elementwise;
the per-year ranges are then concatenated along a `year` axis and averaged
with `mean(dim='year')`. -/
def get_range {Cell : Type} (ds : RDataset Cell) (variable_name : String) :
    Except String (Cell → ℚ) :=
  match get_variable_data ds variable_name with
  | .error e => .error e
  | .ok data =>
    let annual_ranges := (uniqueYears data).map (fun year => fun c =>
      |listMax (cellSeries (yearSamples data year) c) -
        listMin (cellSeries (yearSamples data year) c)|)
    .ok (fun c => ((annual_ranges.map (fun r => r c)).sum) / (annual_ranges.length : ℚ))

end Reducer

namespace Derived

/-- A coordinate-labelled one-band array as the derived-quantity computer
sees it: the flattened list of coordinate labels that index it, and a
real value at each label.  Mirrors an `xr.DataArray` with its coords. -/
structure CArr where
  coords : List Int
  vals : Int → ℝ

/-- The working dataset: variable name to array, in insertion order. -/
abbrev DSet := List (String × CArr)

/-- `CopernicusProcessor.get_variable_data` at this facet: `self.dataset[name]`
or a `ValueError` when absent. -/
def get_variable_data (ds : DSet) (variable_name : String) : Except String CArr :=
  match ds.lookup variable_name with
  | some a => .ok a
  | none => .error ("Variable " ++ variable_name ++ " not found in dataset.")

/-- `xr.ufuncs.sqrt(self_u**2 + self_v**2)`.  xarray binary arithmetic
aligns the two operands on the intersection (inner join) of their
coordinate labels — it raises no shape or alignment error — and the result
carries the aligned labels.  No alignment check appears in the source. -/
noncomputable def speed_arr (u v : CArr) : CArr :=
  { coords := u.coords.inter v.coords,
    vals := fun c => Real.sqrt (u.vals c ^ 2 + v.vals c ^ 2) }

/-- `self.dataset['V'] = speed`: Python dict-style assignment — replace the
entry named `name` in place, or append it when absent. -/
def setVar : DSet → String → CArr → DSet
  | [], name, a => [(name, a)]
  | p :: rest, name, a =>
    if p.1 = name then (name, a) :: rest else p :: setVar rest name a

/-- `CopernicusProcessor.speed_from_components`: fetch the two component
variables (a `ValueError` propagates when one is absent), compute the
elementwise magnitude, store it in the dataset under the fixed name `V`,
and return the whole updated dataset (`return self.dataset`), not the
magnitude array alone. -/
noncomputable def speed_from_components (ds : DSet)
    (u_component v_component : String) : Except String DSet :=
  match get_variable_data ds u_component with
  | .error e => .error e
  | .ok self_u =>
    match get_variable_data ds v_component with
    | .error e => .error e
    | .ok self_v => .ok (setVar ds "V" (speed_arr self_u self_v))

end Derived

namespace Proc

/-- The metadata of one `xr.DataArray` that the exporter and orchestrator
inspect: its ordered dimension list (name, length), the coordinate values
along its x-like dimension (used only by `get_cell_size`), and the EPSG
code of the CRS it carries, when any. -/
structure MDArr where
  dims : List (String × Nat)
  xcoords : List ℚ
  crs : Option Nat
deriving DecidableEq

/-- The dataset at the metadata facet: variable name to array metadata. -/
abbrev MDSet := List (String × MDArr)

/-- `CopernicusProcessor.get_variable_data`: `self.dataset[name]` or a
`ValueError` when the variable is absent. -/
def get_variable_data (ds : MDSet) (variable_name : String) : Except String MDArr :=
  match ds.lookup variable_name with
  | some a => .ok a
  | none => .error ("Variable " ++ variable_name ++ " not found in dataset.")

/-- The fixed ordered x-dimension candidate list `['x', 'lon', 'longitude']`. -/
def xCandidates : List String := ["x", "lon", "longitude"]

/-- The fixed ordered y-dimension candidate list `['y', 'lat', 'latitude']`. -/
def yCandidates : List String := ["y", "lat", "latitude"]

/-- `next((n for n in cands if n in da.dims), None)`: first candidate present
among the dimension names. -/
def findDim (cands dims : List String) : Option String :=
  cands.find? (fun n => dims.contains n)

/-- The spatial-dimension resolution performed inline in
`dataarray_to_geotiff`: the first x-like and first y-like name present among
the array's dimension names; `none` (a `ValueError` in the source) when
either candidate list has no match. -/
def resolve_spatial_dims (dims : List String) : Option (String × String) :=
  match findDim xCandidates dims, findDim yCandidates dims with
  | some x, some y => some (x, y)
  | _, _ => none

/-- Zero-pad a natural number below 1000 to three digits. -/
def pad3 (n : Nat) : String :=
  if n < 10 then "00" ++ toString n
  else if n < 100 then "0" ++ toString n
  else toString n

/-- `f"{resolution:.3f}".replace('.', '_')` for a nonnegative resolution:
round to three decimals and write `_` for the decimal point.  (Python's
formatting rounds ties to even; `round` here rounds ties up — the two agree
away from exact half-thousandths.) -/
def format3 (q : ℚ) : String :=
  let m : Nat := (round (q * 1000) : ℤ).toNat
  toString (m / 1000) ++ "_" ++ pad3 (m % 1000)

/-- `CopernicusProcessor.get_cell_size`: find the x-like dimension (raising
when none is present), require at least two coordinate samples along it, and
format `abs(x_coords[1] - x_coords[0])` as a cell-size token. -/
def get_cell_size (da : MDArr) : Except String String :=
  match findDim xCandidates (da.dims.map Prod.fst) with
  | none => .error "No x/longitude dimension found"
  | some _ =>
    match da.xcoords with
    | c0 :: c1 :: _ => .ok (format3 |c1 - c0|)
    | _ => .error "Need at least 2 coordinate values to calculate resolution"

/-- The `ValueError` message xarray raises when `squeeze` is asked to drop a
dimension whose length is not one. -/
def squeezeMsg : String :=
  "cannot select a dimension to squeeze out which has length greater than one"

/-- `if 'time' in da.dims: da = da.squeeze('time', drop=True)`: when a time
dimension is present it must have length one, in which case it is dropped
and every other dimension is left as it is; otherwise xarray raises. -/
def squeezeTime (da : MDArr) : Except String MDArr :=
  match da.dims.find? (fun p => p.1 = "time") with
  | none => .ok da
  | some p =>
    if p.2 = 1 then .ok { da with dims := da.dims.filter (fun q => q.1 ≠ "time") }
    else .error squeezeMsg

/-- `da.rename({x_dim: 'x', y_dim: 'y'})` when the resolved pair is not
already `('x', 'y')`. -/
def renameXY (da : MDArr) (x_dim y_dim : String) : MDArr :=
  if (x_dim, y_dim) = ("x", "y") then da
  else { da with dims := da.dims.map (fun p =>
    if p.1 = x_dim then ("x", p.2) else if p.1 = y_dim then ("y", p.2) else p) }

/-- The raster file `dataarray_to_geotiff` writes: its path and base name,
the dims of the written band, the CRS it is tagged with, and the requested
nodata/dtype/compression. -/
structure GeoTiff where
  path : String
  fname : String
  dims : List (String × Nat)
  crs : Option Nat
  nodata : Option Int
  dtype : Option String
  compress : String
deriving DecidableEq

/-- `CopernicusProcessor.dataarray_to_geotiff`: map the variable key through
`self.var_map` (falling back to the raw key), squeeze a singleton time
dimension, resolve and canonicalise the spatial dimensions (raising when
absent), stamp `EPSG:{self.epsg}` only when the array carries no CRS, and
write `{mapped}.tif` under `out_dir` with the requested nodata, dtype and
compression.  An error anywhere means no file is written. -/
def dataarray_to_geotiff (vm : List (String × String)) (epsg : Nat) (da : MDArr)
    (variable_key out_dir : String) (nodata : Option Int) (dtype : Option String)
    (compress : String) : Except String GeoTiff :=
  let mapped := (vm.lookup variable_key).getD variable_key
  match squeezeTime da with
  | .error e => .error e
  | .ok da2 =>
    match resolve_spatial_dims (da2.dims.map Prod.fst) with
    | none => .error "No se encontraron dimensiones espaciales."
    | some xy =>
      let da3 := renameXY da2 xy.1 xy.2
      let crs2 := match da3.crs with | some c => some c | none => some epsg
      .ok { path := out_dir ++ "/" ++ mapped ++ ".tif",
            fname := mapped ++ ".tif",
            dims := da3.dims, crs := crs2,
            nodata := nodata, dtype := dtype, compress := compress }

/-- `data.max(dim='time')` / `min` / the range pipeline, at the metadata
facet: reducing over the time dimension removes it (whatever its length) and
keeps every other dimension, the x-coordinates and the CRS tag; xarray
raises when the dimension is absent. -/
def reduceTime (a : MDArr) : Except String MDArr :=
  if (a.dims.map Prod.fst).contains "time" then
    .ok { a with dims := a.dims.filter (fun p => p.1 ≠ "time") }
  else .error "dimension time not found"

/-- `CopernicusProcessor.get_max` at the metadata facet (cell values are the
business of `Copernicus.Reducer.get_max`). -/
def get_max (ds : MDSet) (variable_name : String) : Except String MDArr :=
  match get_variable_data ds variable_name with
  | .error e => .error e
  | .ok data => reduceTime data

/-- `CopernicusProcessor.get_min` at the metadata facet. -/
def get_min (ds : MDSet) (variable_name : String) : Except String MDArr :=
  match get_variable_data ds variable_name with
  | .error e => .error e
  | .ok data => reduceTime data

/-- `CopernicusProcessor.get_range` at the metadata facet: the per-year
max/min, the concat along `year` and the `mean(dim='year')` leave exactly
the non-time dimensions (values are the business of
`Copernicus.Reducer.get_range`); absent time raises. -/
def get_range (ds : MDSet) (variable_name : String) : Except String MDArr :=
  match get_variable_data ds variable_name with
  | .error e => .error e
  | .ok data => reduceTime data

/-- Dict-style in-place update of the metadata dataset
(`self.dataset['V'] = speed`). -/
def setVar : MDSet → String → MDArr → MDSet
  | [], name, a => [(name, a)]
  | p :: rest, name, a =>
    if p.1 = name then (name, a) :: rest else p :: setVar rest name a

/-- Metadata of `sqrt(u**2 + v**2)`: xarray broadcasting keeps `u`'s
dimensions and appends those of `v` not shared with `u`; coords and CRS
follow the first operand. -/
def broadcastWith (u v : MDArr) : MDArr :=
  { dims := u.dims ++ v.dims.filter (fun p => ¬ (u.dims.map Prod.fst).contains p.1),
    xcoords := u.xcoords, crs := u.crs }

/-- `CopernicusProcessor.speed_from_components` at the metadata facet: fetch
both components (raising when absent), store the magnitude under `V` and
return the updated dataset. -/
def speed_from_components (ds : MDSet) (u_component v_component : String) :
    Except String MDSet :=
  match get_variable_data ds u_component with
  | .error e => .error e
  | .ok su =>
    match get_variable_data ds v_component with
    | .error e => .error e
    | .ok sv => .ok (setVar ds "V" (broadcastWith su sv))

/-- One value of `processing_config`: either a plain list of operation names
or the special `{'components': [...], 'operations': [...]}` dict. -/
inductive PlanVal where
  | list (ops : List String)
  | dict (components : List String) (operations : List String)
deriving DecidableEq

/-- What happened to one (variable, operation) job, or to a whole plan entry
whose current-speed preparation failed: the orchestrator prints and moves
on in every case. -/
inductive JobOutcome where
  | saved (g : GeoTiff)
  | unknownOp (op : String)
  | failed (msg : String)
  | entrySkipped (msg : String)
deriving DecidableEq

/-- The `if op == 'max' / 'min' / 'range'` dispatch inside the per-operation
loop. -/
def applyOp (ds : MDSet) (v op : String) : Except String MDArr :=
  if op = "max" then get_max ds v
  else if op = "min" then get_min ds v
  else get_range ds v

/-- The body of the inner `for op in ops` loop of `batch_process_netcdfs`:
unknown operations are printed and skipped; otherwise the reduction, the
cell-size labelling and the export run inside one `try`, and any error
becomes a printed message (`.failed`), never an exception. -/
def processJob (epsg : Nat) (vm : List (String × String)) (out_dir : String)
    (ds : MDSet) (v op : String) : JobOutcome :=
  if op = "max" ∨ op = "min" ∨ op = "range" then
    match applyOp ds v op with
    | .error m => .failed m
    | .ok result =>
      match get_cell_size result with
      | .error m => .failed m
      | .ok cellsize_str =>
        match dataarray_to_geotiff vm epsg result
            (v ++ "_" ++ op ++ "_" ++ cellsize_str ++ "_" ++ toString epsg)
            out_dir (some (-9999)) (some "float32") "DEFLATE" with
        | .ok g => .saved g
        | .error m => .failed m
  else .unknownOp op

/-- `ops.map`: every operation of one plan entry is attempted, each yielding
its own outcome. -/
def runOps (epsg : Nat) (vm : List (String × String)) (out_dir : String)
    (ds : MDSet) (v : String) (ops : List String) : List JobOutcome :=
  ops.map (fun op => processJob epsg vm out_dir ds v op)

/-- One iteration of `for var_name, operations in processing_config.items()`:
the special `V` entry first computes the current speed inside its own
`try` (any failure prints and skips the entry); then the operation list is
taken from the dict or used directly, and every operation is attempted.
Returns the (possibly updated) dataset and the outcomes. -/
def runEntry (epsg : Nat) (vm : List (String × String)) (out_dir : String)
    (ds : MDSet) (entry : String × PlanVal) : MDSet × List JobOutcome :=
  match entry with
  | (var_name, pv) =>
    if var_name = "V" then
      match pv with
      | .dict comps ops =>
        match comps with
        | [u, v] =>
          match speed_from_components ds u v with
          | .ok ds2 => (ds2, runOps epsg vm out_dir ds2 "V" ops)
          | .error e => (ds, [.entrySkipped e])
        | _ => (ds, [.entrySkipped "ValueError: cannot unpack components"])
      | .list _ => (ds, [.entrySkipped "TypeError: list indices must be integers"])
    else
      match pv with
      | .list ops => (ds, runOps epsg vm out_dir ds var_name ops)
      | .dict _ ops => (ds, runOps epsg vm out_dir ds var_name ops)

/-- The whole per-folder plan loop: entries in order, the dataset threaded
through (the `V` entry mutates the processor's dataset). -/
def runPlan (epsg : Nat) (vm : List (String × String)) (out_dir : String)
    (ds : MDSet) : List (String × PlanVal) → List JobOutcome
  | [] => []
  | e :: rest =>
    let r := runEntry epsg vm out_dir ds e
    r.2 ++ runPlan epsg vm out_dir r.1 rest

/-- The dataset state after running a prefix of the plan. -/
def planState (epsg : Nat) (vm : List (String × String)) (out_dir : String)
    (ds : MDSet) : List (String × PlanVal) → MDSet
  | [] => ds
  | e :: rest => planState epsg vm out_dir (runEntry epsg vm out_dir ds e).1 rest

/-- The outcome of `xr.open_dataset` on one `.nc` file of a folder: the
loaded dataset, or the exception the per-file `try` catches. -/
inductive FileLoad where
  | ok (d : MDSet)
  | fail (msg : String)
deriving DecidableEq

/-- One leaf folder of the input tree: its path relative to the input root
and its `.nc` files with their load outcomes. -/
structure Batch where
  relPath : String
  files : List FileLoad
deriving DecidableEq

/-- The per-file loading loop: failures are printed and the file skipped, so
only the successfully loaded datasets remain. -/
def loadBatch (files : List FileLoad) : List MDSet :=
  files.filterMap (fun f => match f with | .ok d => some d | .fail _ => none)

/-- `xr.merge` of two datasets: union of the variable mappings; a variable
present in both with different content is a merge conflict (`MergeError`). -/
def mergeTwo (a b : MDSet) : Except String MDSet :=
  b.foldl (fun acc p =>
    match acc with
    | .error e => .error e
    | .ok m =>
      match m.lookup p.1 with
      | none => .ok (m ++ [p])
      | some q => if q = p.2 then .ok m else .error "MergeError") (.ok a)

/-- `xr.merge(datasets)` over the loaded list. -/
def mergeAll : List MDSet → Except String MDSet
  | [] => .ok []
  | d :: rest => rest.foldl (fun acc x =>
      match acc with
      | .error e => .error e
      | .ok m => mergeTwo m x) (.ok d)

/-- The message of the uncaught Python `IndexError` raised by `datasets[0]`
when the per-folder load loop produced an empty list. -/
def indexErrorMsg : String := "IndexError: list index out of range"

/-- The body of the per-folder loop of `batch_process_netcdfs`, after the
empty-`nc_files` check: load every file (failures skipped); with more than
one loaded dataset, merge them — a merge failure prints and skips the folder
(`.ok []`); otherwise take `datasets[0]`, which raises an uncaught
`IndexError` when nothing loaded.  On a dataset, run the whole plan. -/
def processBatch (epsg : Nat) (vm : List (String × String))
    (plan : List (String × PlanVal)) (output_root : String) (b : Batch) :
    Except String (List JobOutcome) :=
  let output_folder := output_root ++ "/" ++ b.relPath
  let datasets := loadBatch b.files
  if 1 < datasets.length then
    match mergeAll datasets with
    | .error _ => .ok []
    | .ok ds => .ok (runPlan epsg vm output_folder ds plan)
  else
    match datasets with
    | [] => .error indexErrorMsg
    | ds :: _ => .ok (runPlan epsg vm output_folder ds plan)

/-- `batch_process_netcdfs`: walk the folders in order; a folder with no
`.nc` files is skipped; an uncaught exception in one folder (the
`IndexError` above) propagates and aborts the whole run, so the remaining
folders are attempted only while every earlier folder either completed or
was skipped. -/
def batch_process_netcdfs (epsg : Nat) (vm : List (String × String))
    (plan : List (String × PlanVal)) (output_root : String) :
    List Batch → Except String (List (String × List JobOutcome))
  | [] => .ok []
  | b :: rest =>
    if b.files.isEmpty then batch_process_netcdfs epsg vm plan output_root rest
    else
      match processBatch epsg vm plan output_root b with
      | .error e => .error e
      | .ok outs =>
        match batch_process_netcdfs epsg vm plan output_root rest with
        | .error e => .error e
        | .ok more => .ok ((b.relPath, outs) :: more)

/-- The base names of the rasters actually written among a list of job
outcomes. -/
def savedNames (outs : List JobOutcome) : List String :=
  outs.filterMap (fun o => match o with | .saved g => some g.fname | _ => none)

/-- The base names of every raster a whole run wrote, in order. -/
def savedTiffNames (r : Except String (List (String × List JobOutcome))) : List String :=
  match r with
  | .ok l => (l.map (fun p => savedNames p.2)).flatten
  | .error _ => []

end Proc

/-! Concrete instances used by the witnesses and counterexamples below. -/

/-- A two-sample, single-year (2020) time series over `Bool` cells. -/
def tsW : Reducer.TimeSeries Bool := ⟨[(2020, fun _ => 5), (2020, fun _ => 2)]⟩

/-- A one-variable dataset holding `tsW` under `thetao`. -/
def dsW : Reducer.RDataset Bool := [("thetao", tsW)]

/-- The Operation Plan of the end-to-end scenario:
`{'thetao': ['max', 'range'], 'so': ['min']}`. -/
def planTS : List (String × Proc.PlanVal) :=
  [("thetao", Proc.PlanVal.list ["max", "range"]), ("so", Proc.PlanVal.list ["min"])]

/-- Metadata of a 2-year daily `thetao` variable on a 0.083-degree grid. -/
def mdThetao : Proc.MDArr :=
  ⟨[("time", 730), ("lat", 3), ("lon", 4)],
   [0, 83/1000, 166/1000, 249/1000], none⟩

/-- Metadata of the matching `so` variable. -/
def mdSo : Proc.MDArr :=
  ⟨[("time", 730), ("lat", 3), ("lon", 4)],
   [0, 83/1000, 166/1000, 249/1000], none⟩

/-- The merged 2-year daily dataset with the two plan variables. -/
def dsDaily : Proc.MDSet := [("thetao", mdThetao), ("so", mdSo)]

/-- A batch whose single `.nc` file loads as `dsDaily`. -/
def batchDaily : Proc.Batch := ⟨"Daily", [Proc.FileLoad.ok dsDaily]⟩

/-- A batch with one `.nc` file that fails to open. -/
def bFail : Proc.Batch := ⟨"A", [Proc.FileLoad.fail "could not open"]⟩

/-- A later batch whose file loads fine. -/
def bGood : Proc.Batch := ⟨"B", [Proc.FileLoad.ok dsDaily]⟩

/-- An array already tagged EPSG:3857, handed to the exporter. -/
def da3857 : Proc.MDArr := ⟨[("lon", 4), ("lat", 3)], [0, 1], some 3857⟩

/-- The raster the exporter writes for `da3857` under key `k` in dir `o`
with processor default EPSG:4326. -/
def tif3857 : Proc.GeoTiff :=
  ⟨"o/k.tif", "k.tif", [("x", 4), ("y", 3)], some 3857,
   some (-9999), some "float32", "DEFLATE"⟩

/-- An array whose time dimension still has two samples. -/
def daTime2 : Proc.MDArr := ⟨[("time", 2), ("lat", 3), ("lon", 4)], [0, 1], none⟩

/-- A `uo` component over three coordinate labels. -/
def uMis : Derived.CArr := ⟨[0, 1, 2], fun _ => 3⟩

/-- A `vo` component over two coordinate labels — a different shape and
different labels than `uMis`. -/
def vMis : Derived.CArr := ⟨[0, 1], fun _ => 4⟩

/-- A dataset whose two current components are not axis-aligned. -/
def dsMis : Derived.DSet := [("uo", uMis), ("vo", vMis)]

/-- An axis-aligned `uo` component. -/
def uAl : Derived.CArr := ⟨[0, 1], fun _ => 3⟩

/-- An axis-aligned `vo` component. -/
def vAl : Derived.CArr := ⟨[0, 1], fun _ => 4⟩

/-- A dataset whose two current components share coordinate labels. -/
def dsAl : Derived.DSet := [("uo", uAl), ("vo", vAl)]

namespace Reducer

theorem le_foldl_max (l : List ℚ) : ∀ x : ℚ, x ≤ l.foldl max x := by
  induction l with
  | nil => intro x; exact le_refl x
  | cons a t ih =>
    intro x
    exact le_trans (le_max_left x a) (ih (max x a))

theorem foldl_min_le (l : List ℚ) : ∀ x : ℚ, l.foldl min x ≤ x := by
  induction l with
  | nil => intro x; exact le_refl x
  | cons a t ih =>
    intro x
    exact le_trans (ih (min x a)) (min_le_left x a)

theorem listMin_le_listMax (l : List ℚ) (h : l ≠ []) : listMin l ≤ listMax l := by
  cases l with
  | nil => exact absurd rfl h
  | cons x xs =>
    calc listMin (x :: xs) = xs.foldl min x := rfl
      _ ≤ x := foldl_min_le xs x
      _ ≤ xs.foldl max x := le_foldl_max xs x
      _ = listMax (x :: xs) := rfl

theorem dedup_of_all_eq (l : List Int) (y : Int) (hne : l ≠ [])
    (hall : ∀ a ∈ l, a = y) : l.dedup = [y] := by
  induction l with
  | nil => exact absurd rfl hne
  | cons a t ih =>
    have ha : a = y := hall a (List.mem_cons_self a t)
    subst ha
    cases t with
    | nil => simp
    | cons b t2 =>
      have hall2 : ∀ x ∈ b :: t2, x = a := fun x hx => hall x (List.mem_cons_of_mem a hx)
      have hd : (b :: t2).dedup = [a] := ih (by simp) hall2
      have hmem : a ∈ b :: t2 := by
        have hb : b = a := hall2 b (by simp)
        simp [hb]
      rw [List.dedup_cons_of_mem hmem]
      exact hd

theorem uniqueYears_single {Cell : Type} (ts : TimeSeries Cell) (y : Int)
    (hne : ts.samples ≠ []) (hy : ∀ p ∈ ts.samples, p.1 = y) :
    uniqueYears ts = [y] := by
  unfold uniqueYears
  have hperm : List.Perm ((ts.samples.map Prod.fst).insertionSort (· ≤ ·)) (ts.samples.map Prod.fst) :=
    List.perm_insertionSort (· ≤ ·) (ts.samples.map Prod.fst)
  apply dedup_of_all_eq _ y
  · intro hnil
    have : ts.samples.map Prod.fst = [] := by
      have := hperm.symm
      rw [hnil] at hperm
      exact hperm.symm.eq_nil
    exact hne (List.map_eq_nil_iff.mp this)
  · intro a ha
    have ha2 : a ∈ ts.samples.map Prod.fst := hperm.mem_iff.mp ha
    obtain ⟨p, hp, rfl⟩ := List.mem_map.mp ha2
    exact hy p hp

theorem yearSamples_of_all_eq {Cell : Type} (ts : TimeSeries Cell) (y : Int)
    (hy : ∀ p ∈ ts.samples, p.1 = y) : yearSamples ts y = ts := by
  unfold yearSamples
  cases ts with
  | mk s =>
    simp only [TimeSeries.mk.injEq]
    apply List.filter_eq_self.mpr
    intro p hp
    simp [hy p hp]

/-- C3: on a dataset whose time samples all fall in one calendar year, the
annual-range reduction `get_range` coincides elementwise with
`|get_max - get_min|` for every variable with at least one time sample. -/
theorem annual_range_single_year {Cell : Type} (ds : RDataset Cell) (v : String)
    (ts : TimeSeries Cell) (y : Int)
    (hv : get_variable_data ds v = .ok ts)
    (hne : ts.samples ≠ [])
    (hy : ∀ p ∈ ts.samples, p.1 = y) :
    ∃ r f g, get_range ds v = .ok r ∧ get_max ds v = .ok f ∧ get_min ds v = .ok g ∧
      ∀ c, r c = |f c - g c| := by
  have hyear : uniqueYears ts = [y] := uniqueYears_single ts y hne hy
  have hys : yearSamples ts y = ts := yearSamples_of_all_eq ts y hy
  refine ⟨fun c => ((((uniqueYears ts).map (fun year => fun c =>
      |listMax (cellSeries (yearSamples ts year) c) -
        listMin (cellSeries (yearSamples ts year) c)|)).map (fun r => r c)).sum) /
      (((uniqueYears ts).map (fun year => fun c =>
      |listMax (cellSeries (yearSamples ts year) c) -
        listMin (cellSeries (yearSamples ts year) c)|)).length : ℚ),
    fun c => listMax (cellSeries ts c), fun c => listMin (cellSeries ts c),
    ?_, ?_, ?_, ?_⟩
  · simp only [get_range, hv]
  · simp only [get_max, hv]
  · simp only [get_min, hv]
  · intro c
    rw [hyear]
    simp [hys]

/-- Witness for C3 at a concrete single-year two-sample dataset. -/
theorem annual_range_single_year_witness :
    get_variable_data dsW "thetao" = .ok tsW ∧ tsW.samples ≠ [] ∧
    (∀ p ∈ tsW.samples, p.1 = 2020) ∧
    ∃ r f g, get_range dsW "thetao" = .ok r ∧ get_max dsW "thetao" = .ok f ∧
      get_min dsW "thetao" = .ok g ∧ ∀ c, r c = |f c - g c| := by
  have hy : ∀ p ∈ tsW.samples, p.1 = 2020 := by
    intro p hp
    simp only [tsW, List.mem_cons, List.not_mem_nil, or_false] at hp
    rcases hp with h | h <;> rw [h]
  exact ⟨rfl, by simp [tsW], hy,
    annual_range_single_year dsW "thetao" tsW 2020 rfl (by simp [tsW]) hy⟩

/-- C8: wherever both are defined (the model's rationals are the finite
float values; NaN/Inf are unrepresentable), `get_max` dominates `get_min`
elementwise for every variable with at least one time sample. -/
theorem max_minus_min_nonneg {Cell : Type} (ds : RDataset Cell) (v : String)
    (ts : TimeSeries Cell)
    (hv : get_variable_data ds v = .ok ts)
    (hne : ts.samples ≠ []) :
    ∃ f g, get_max ds v = .ok f ∧ get_min ds v = .ok g ∧
      ∀ c, 0 ≤ f c - g c := by
  refine ⟨fun c => listMax (cellSeries ts c), fun c => listMin (cellSeries ts c),
    ?_, ?_, ?_⟩
  · simp only [get_max, hv]
  · simp only [get_min, hv]
  · intro c
    have hcs : cellSeries ts c ≠ [] := by
      unfold cellSeries
      simpa using hne
    exact sub_nonneg.mpr (listMin_le_listMax (cellSeries ts c) hcs)

/-- Witness for C8 at the same concrete dataset. -/
theorem max_minus_min_nonneg_witness :
    get_variable_data dsW "thetao" = .ok tsW ∧ tsW.samples ≠ [] ∧
    ∃ f g, get_max dsW "thetao" = .ok f ∧ get_min dsW "thetao" = .ok g ∧
      ∀ c, 0 ≤ f c - g c :=
  ⟨rfl, by simp [tsW], max_minus_min_nonneg dsW "thetao" tsW rfl (by simp [tsW])⟩

end Reducer

namespace Derived

theorem lookup_setVar_self (ds : DSet) (name : String) (a : CArr) :
    (setVar ds name a).lookup name = some a := by
  induction ds with
  | nil => simp [setVar, List.lookup]
  | cons p rest ih =>
    by_cases h : p.1 = name
    · simp [setVar, h, List.lookup]
    · have hb : (name == p.1) = false := beq_eq_false_iff_ne.mpr (Ne.symm h)
      simp [setVar, h, List.lookup, hb, ih]

theorem lookup_setVar_ne (ds : DSet) (name : String) (a : CArr) (n : String)
    (hn : n ≠ name) : (setVar ds name a).lookup n = ds.lookup n := by
  induction ds with
  | nil =>
    have hb : (n == name) = false := beq_eq_false_iff_ne.mpr hn
    simp [setVar, List.lookup, hb]
  | cons p rest ih =>
    by_cases h : p.1 = name
    · have hb : (n == name) = false := beq_eq_false_iff_ne.mpr hn
      have hb2 : (n == p.1) = false := by rw [h]; exact hb
      simp [setVar, h, List.lookup, hb, hb2]
    · cases hq : (n == p.1) with
      | true => simp [setVar, h, List.lookup, hq]
      | false => simp [setVar, h, List.lookup, hq, ih]

theorem inter_self_int (l : List Int) : l.inter l = l := by
  apply List.filter_eq_self.mpr
  intro a ha
  simpa using ha

/-- C5 counterexample: the source performs no alignment check — on two
component arrays of different shapes and different coordinate labels,
`speed_from_components` returns successfully (xarray silently aligns) and
raises nothing, so no `ShapeMismatch` failure exists. -/
theorem speed_no_shape_error :
    uMis.coords.length ≠ vMis.coords.length ∧ uMis.coords ≠ vMis.coords ∧
    exceptIsOk (speed_from_components dsMis "uo" "vo") = true :=
  ⟨by decide, by decide, rfl⟩

/-- C5 (amended): when the two components are axis-aligned (equal coordinate
labels), `speed_from_components` succeeds and stores under `V` the array
with those labels and the elementwise magnitude `sqrt(u^2 + v^2)`; when they
are not aligned the computation still succeeds on the aligned intersection
(no `ShapeMismatch` error is ever raised). -/
theorem speed_aligned_magnitude (ds : DSet) (u_component v_component : String)
    (su sv : CArr)
    (hu : get_variable_data ds u_component = .ok su)
    (hv : get_variable_data ds v_component = .ok sv)
    (hal : su.coords = sv.coords) :
    ∃ ds2, speed_from_components ds u_component v_component = .ok ds2 ∧
      ∃ s, ds2.lookup "V" = some s ∧ s.coords = su.coords ∧
        ∀ c, s.vals c = Real.sqrt (su.vals c ^ 2 + sv.vals c ^ 2) := by
  refine ⟨setVar ds "V" (speed_arr su sv), ?_, speed_arr su sv, ?_, ?_, ?_⟩
  · simp only [speed_from_components, hu, hv]
  · exact lookup_setVar_self ds "V" _
  · show su.coords.inter sv.coords = su.coords
    rw [← hal]
    exact inter_self_int su.coords
  · intro c
    rfl

/-- Witness for the amended C5 on a concrete axis-aligned pair. -/
theorem speed_aligned_magnitude_witness :
    get_variable_data dsAl "uo" = .ok uAl ∧ uAl.coords = vAl.coords ∧
    ∃ ds2, speed_from_components dsAl "uo" "vo" = .ok ds2 ∧
      ∃ s, ds2.lookup "V" = some s ∧ s.coords = uAl.coords ∧
        ∀ c, s.vals c = Real.sqrt (uAl.vals c ^ 2 + vAl.vals c ^ 2) :=
  ⟨rfl, rfl, speed_aligned_magnitude dsAl "uo" "vo" uAl vAl rfl rfl rfl⟩

/-- C10: `speed_from_components` updates only the `V` entry of the dataset —
every other variable still looks up to its old value — and what it returns
is the updated dataset itself (`return self.dataset`), with `V` holding the
magnitude array. -/
theorem speed_mutates_only_V (ds : DSet) (u_component v_component : String)
    (su sv : CArr)
    (hu : get_variable_data ds u_component = .ok su)
    (hv : get_variable_data ds v_component = .ok sv) :
    ∃ ds2, speed_from_components ds u_component v_component = .ok ds2 ∧
      (∀ n, n ≠ "V" → ds2.lookup n = ds.lookup n) ∧
      ds2.lookup "V" = some (speed_arr su sv) := by
  refine ⟨setVar ds "V" (speed_arr su sv), ?_, ?_, ?_⟩
  · simp only [speed_from_components, hu, hv]
  · intro n hn
    exact lookup_setVar_ne ds "V" _ n hn
  · exact lookup_setVar_self ds "V" _

/-- Witness for C10 on the same concrete dataset. -/
theorem speed_mutates_only_V_witness :
    get_variable_data dsAl "uo" = .ok uAl ∧ get_variable_data dsAl "vo" = .ok vAl ∧
    ∃ ds2, speed_from_components dsAl "uo" "vo" = .ok ds2 ∧
      (∀ n, n ≠ "V" → ds2.lookup n = dsAl.lookup n) ∧
      ds2.lookup "V" = some (speed_arr uAl vAl) :=
  ⟨rfl, rfl, speed_mutates_only_V dsAl "uo" "vo" uAl vAl rfl rfl⟩

end Derived

namespace Proc

theorem findDim_eq_none (cands dims : List String) :
    findDim cands dims = none ↔ ∀ n ∈ cands, n ∉ dims := by
  unfold findDim
  rw [List.find?_eq_none]
  constructor
  · intro h n hn hmem
    exact h n hn (by simpa [List.contains] using hmem)
  · intro h n hn hc
    exact h n hn (by simpa [List.contains] using hc)

theorem findDim_eq_some (cands dims : List String) (x : String)
    (h : findDim cands dims = some x) :
    x ∈ dims ∧ ∃ l1 l2, cands = l1 ++ x :: l2 ∧ ∀ n ∈ l1, n ∉ dims := by
  unfold findDim at h
  rw [List.find?_eq_some] at h
  obtain ⟨hx, as, bs, hsplit, hall⟩ := h
  refine ⟨by simpa [List.contains] using hx, as, bs, hsplit, ?_⟩
  intro n hn hmem
  have hb := hall n hn
  simp [List.contains] at hb
  exact hb hmem

/-- C6: spatial-dimension resolution returns the first x-candidate and first
y-candidate present among the dimension names, is `none` (a `ValueError`)
exactly when either candidate list has no match, and in particular fails on
`{time, depth}` and returns `("lon", "lat")` on `{time, lon, lat}`. -/
theorem resolve_spatial_dims_first_match (dims : List String) :
    (resolve_spatial_dims dims = none ↔
      ((∀ n ∈ xCandidates, n ∉ dims) ∨ (∀ n ∈ yCandidates, n ∉ dims))) ∧
    (∀ x y, resolve_spatial_dims dims = some (x, y) →
      x ∈ dims ∧ y ∈ dims ∧
      (∃ l1 l2, xCandidates = l1 ++ x :: l2 ∧ ∀ n ∈ l1, n ∉ dims) ∧
      (∃ l1 l2, yCandidates = l1 ++ y :: l2 ∧ ∀ n ∈ l1, n ∉ dims)) ∧
    resolve_spatial_dims ["time", "depth"] = none ∧
    resolve_spatial_dims ["time", "lon", "lat"] = some ("lon", "lat") := by
  refine ⟨⟨?_, ?_⟩, ?_, by decide, by decide⟩
  · intro h
    unfold resolve_spatial_dims at h
    cases hx : findDim xCandidates dims with
    | none => exact Or.inl ((findDim_eq_none _ _).mp hx)
    | some a =>
      cases hy : findDim yCandidates dims with
      | none => exact Or.inr ((findDim_eq_none _ _).mp hy)
      | some b => rw [hx, hy] at h; simp at h
  · intro h
    unfold resolve_spatial_dims
    rcases h with h | h
    · rw [(findDim_eq_none _ _).mpr h]
    · rw [(findDim_eq_none _ _).mpr h]
      cases findDim xCandidates dims <;> rfl
  · intro x y hxy
    unfold resolve_spatial_dims at hxy
    cases hx : findDim xCandidates dims with
    | none => rw [hx] at hxy; simp at hxy
    | some a =>
      cases hy : findDim yCandidates dims with
      | none => rw [hx, hy] at hxy; simp at hxy
      | some b =>
        rw [hx, hy] at hxy
        simp only [Option.some.injEq, Prod.mk.injEq] at hxy
        obtain ⟨rfl, rfl⟩ := hxy
        obtain ⟨hxd, hxsplit⟩ := findDim_eq_some _ _ _ hx
        obtain ⟨hyd, hysplit⟩ := findDim_eq_some _ _ _ hy
        exact ⟨hxd, hyd, hxsplit, hysplit⟩

/-- Witness for C6: the theorem applied at `["time", "lon", "lat"]`. -/
theorem resolve_spatial_dims_first_match_witness :
    resolve_spatial_dims ["time", "lon", "lat"] = some ("lon", "lat") ∧
    "lon" ∈ ["time", "lon", "lat"] ∧ "lat" ∈ ["time", "lon", "lat"] := by
  have h := resolve_spatial_dims_first_match ["time", "lon", "lat"]
  have hs := h.2.2.2
  have hp := h.2.1 "lon" "lat" hs
  exact ⟨hs, hp.1, hp.2.1⟩

theorem squeezeTime_crs (da da2 : MDArr) (h : squeezeTime da = .ok da2) :
    da2.crs = da.crs := by
  unfold squeezeTime at h
  cases hf : da.dims.find? (fun p => p.1 = "time") with
  | none =>
    rw [hf] at h
    injection h with h2
    rw [← h2]
  | some p =>
    simp only [hf] at h
    by_cases hp : p.2 = 1
    · rw [if_pos hp] at h
      injection h with h2
      rw [← h2]
    · rw [if_neg hp] at h
      cases h

theorem renameXY_crs (da : MDArr) (x y : String) : (renameXY da x y).crs = da.crs := by
  unfold renameXY
  split <;> rfl

/-- C4: for an array already carrying a CRS, the written raster keeps that
CRS whatever the processor's configured EPSG; the configured EPSG is stamped
exactly when the array carries no CRS. -/
theorem export_crs_fallback_not_override (vm : List (String × String)) (epsg : Nat)
    (da : MDArr) (key dir : String) (nodata : Option Int) (dtype : Option String)
    (cp : String) (g : GeoTiff)
    (hok : dataarray_to_geotiff vm epsg da key dir nodata dtype cp = .ok g) :
    (∀ c, da.crs = some c → g.crs = some c) ∧ (da.crs = none → g.crs = some epsg) := by
  cases hsq : squeezeTime da with
  | error e => simp [dataarray_to_geotiff, hsq] at hok
  | ok da2 =>
    cases hr : resolve_spatial_dims (da2.dims.map Prod.fst) with
    | none => simp [dataarray_to_geotiff, hsq, hr] at hok
    | some xy =>
      simp only [dataarray_to_geotiff, hsq, hr, Except.ok.injEq] at hok
      subst hok
      have hcrs : (renameXY da2 xy.1 xy.2).crs = da.crs := by
        rw [renameXY_crs, squeezeTime_crs da da2 hsq]
      constructor
      · intro c hc
        show (match (renameXY da2 xy.1 xy.2).crs with
          | some c2 => some c2 | none => some epsg) = some c
        rw [hcrs, hc]
      · intro hc
        show (match (renameXY da2 xy.1 xy.2).crs with
          | some c2 => some c2 | none => some epsg) = some epsg
        rw [hcrs, hc]

/-- Witness for C4: an EPSG:3857 array exported with default 4326 keeps 3857. -/
theorem export_crs_fallback_witness :
    da3857.crs = some 3857 ∧ tif3857.crs = some 3857 :=
  ⟨rfl, (export_crs_fallback_not_override [] 4326 da3857 "k" "o" (some (-9999))
    (some "float32") "DEFLATE" tif3857 rfl).1 3857 rfl⟩

/-- C9: an array reaching the exporter with more than one time sample makes
the singleton squeeze raise, the export returns the error and no raster
value is produced; with exactly one time sample the time dimension is
dropped and every other dimension survives unchanged, in order. -/
theorem export_time_squeeze (vm : List (String × String)) (epsg : Nat) (da : MDArr)
    (key dir : String) (nodata : Option Int) (dtype : Option String) (cp : String)
    (n : Nat)
    (hfind : da.dims.find? (fun p => p.1 = "time") = some ("time", n)) :
    (1 < n → dataarray_to_geotiff vm epsg da key dir nodata dtype cp = .error squeezeMsg) ∧
    (n = 1 → ∃ out, squeezeTime da = .ok out ∧
      "time" ∉ out.dims.map Prod.fst ∧
      out.dims.Sublist da.dims ∧
      ∀ p ∈ da.dims, p.1 ≠ "time" → p ∈ out.dims) := by
  constructor
  · intro h1
    have hn : ¬ n = 1 := by omega
    have hsq : squeezeTime da = .error squeezeMsg := by
      unfold squeezeTime
      rw [hfind]
      simp [hn]
    simp [dataarray_to_geotiff, hsq]
  · intro h1
    refine ⟨{ da with dims := da.dims.filter (fun q => q.1 ≠ "time") }, ?_, ?_, ?_, ?_⟩
    · unfold squeezeTime
      rw [hfind]
      simp [h1]
    · intro hmem
      simp only [List.mem_map] at hmem
      obtain ⟨p, hp, hfst⟩ := hmem
      have hpt := List.of_mem_filter hp
      simp at hpt
      exact hpt hfst
    · exact List.filter_sublist da.dims
    · intro p hp hne
      exact List.mem_filter.mpr ⟨hp, by simpa using hne⟩

/-- Witness for C9: a two-sample time axis makes the export fail. -/
theorem export_time_squeeze_witness :
    daTime2.dims.find? (fun p => p.1 = "time") = some ("time", 2) ∧
    dataarray_to_geotiff [] 4326 daTime2 "k" "o" (some (-9999)) (some "float32")
      "DEFLATE" = .error squeezeMsg := by
  have h := export_time_squeeze [] 4326 daTime2 "k" "o" (some (-9999))
    (some "float32") "DEFLATE" 2 rfl
  exact ⟨rfl, h.1 (by omega)⟩

/-- C7: plan-entry errors are contained at the per-entry boundary.  First,
running a plan splits over any decomposition — whatever happened in the
prefix (including failed jobs), every entry of the suffix is still
processed, from the state the prefix left.  Second, every operation of an
entry yields exactly one outcome, never an exception, so failures of one
operation cannot stop the following ones.  Third, whenever a batch has at
least one loadable file, `processBatch` returns normally: no plan-entry
error escapes the orchestrator. -/
theorem plan_entry_errors_contained (epsg : Nat) (vm : List (String × String))
    (out_dir output_root : String) (ds : MDSet) (l1 l2 : List (String × PlanVal))
    (v : String) (ops : List String) (plan : List (String × PlanVal)) (b : Batch) :
    (runPlan epsg vm out_dir ds (l1 ++ l2) =
      runPlan epsg vm out_dir ds l1 ++
        runPlan epsg vm out_dir (planState epsg vm out_dir ds l1) l2) ∧
    ((runOps epsg vm out_dir ds v ops).length = ops.length) ∧
    (loadBatch b.files ≠ [] →
      exceptIsOk (processBatch epsg vm plan output_root b) = true) := by
  refine ⟨?_, ?_, ?_⟩
  · induction l1 generalizing ds with
    | nil => simp [runPlan, planState]
    | cons e rest ih =>
      simp [runPlan, planState, ih, List.append_assoc]
  · simp [runOps]
  · intro h
    cases hl : loadBatch b.files with
    | nil => exact absurd hl h
    | cons d rest2 =>
      simp only [processBatch, hl]
      by_cases hlen : 1 < (d :: rest2).length
      · rw [if_pos hlen]
        cases mergeAll (d :: rest2) <;> rfl
      · rw [if_neg hlen]
        rfl

/-- Witness for C7: a concrete batch with one loadable file, run on a plan
whose first entry fails (unknown variable) — the batch still returns
normally. -/
theorem plan_entry_errors_contained_witness :
    loadBatch batchDaily.files ≠ [] ∧
    exceptIsOk (processBatch 4326 []
      [("bogus", PlanVal.list ["max"]), ("so", PlanVal.list ["min"])]
      "out" batchDaily) = true := by
  have h := plan_entry_errors_contained 4326 [] "o" "out" dsDaily
    [("bogus", PlanVal.list ["max"])] [("so", PlanVal.list ["min"])] "so" ["min"]
    [("bogus", PlanVal.list ["max"]), ("so", PlanVal.list ["min"])] batchDaily
  exact ⟨by simp [loadBatch, batchDaily], h.2.2 (by simp [loadBatch, batchDaily])⟩

/-- C1 is false of the code: a nonempty batch in which zero files load
successfully reaches `datasets[0]` on an empty list, whose `IndexError` is
not caught — `batch_process_netcdfs` raises and every remaining batch is
abandoned. -/
theorem zero_loadable_files_aborts_run (epsg : Nat) (vm : List (String × String))
    (plan : List (String × PlanVal)) (output_root : String) (b : Batch)
    (rest : List Batch) (hne : b.files ≠ []) (hzero : loadBatch b.files = []) :
    batch_process_netcdfs epsg vm plan output_root (b :: rest) =
      .error indexErrorMsg := by
  have hfe : b.files.isEmpty = false := by
    cases hf : b.files with
    | nil => exact absurd hf hne
    | cons a t => rfl
  have hpb : processBatch epsg vm plan output_root b = .error indexErrorMsg := by
    simp only [processBatch, hzero]
    rfl
  simp only [batch_process_netcdfs, hfe, Bool.false_eq_true, if_false, hpb]

/-- Witness for C1's failing input: the first batch's only file fails to
load; the run dies with the `IndexError` and the healthy second batch is
never processed. -/
theorem zero_loadable_files_aborts_run_witness :
    bFail.files ≠ [] ∧ loadBatch bFail.files = [] ∧
    batch_process_netcdfs 4326 [] planTS "out" [bFail, bGood] =
      .error indexErrorMsg := by
  refine ⟨by simp [bFail], by simp [loadBatch, bFail], ?_⟩
  exact zero_loadable_files_aborts_run 4326 [] planTS "out" bFail [bGood]
    (by simp [bFail]) (by simp [loadBatch, bFail])

section

attribute [local semireducible] Rat.sub Rat.add Rat.mul Rat.inv

/-- C2 counterexample: the end-to-end scenario writes three rasters, but
their names carry the cell-size token and the EPSG code
(`{var}_{op}_{cellsize}_{epsg}.tif`), not the bare `{var}_{op}.tif` the
claim states (the bare `{var}_{op}` appears only in the log line). -/
theorem plan_output_names_not_bare :
    savedTiffNames (batch_process_netcdfs 4326 [] planTS "out" [batchDaily]) =
      ["thetao_max_0_083_4326.tif", "thetao_range_0_083_4326.tif",
       "so_min_0_083_4326.tif"] ∧
    savedTiffNames (batch_process_netcdfs 4326 [] planTS "out" [batchDaily]) ≠
      ["thetao_max.tif", "thetao_range.tif", "so_min.tif"] := by
  have h1 : savedTiffNames (batch_process_netcdfs 4326 [] planTS "out" [batchDaily]) =
      ["thetao_max_0_083_4326.tif", "thetao_range_0_083_4326.tif",
       "so_min_0_083_4326.tif"] := by rfl
  refine ⟨h1, ?_⟩
  rw [h1]
  decide

/-- C2 (amended): the scenario's plan over a dataset holding `thetao` and
`so` with a time axis and at least two x-coordinates spaced 0.083 apart
produces exactly three rasters, named
`thetao_max_0_083_4326.tif`, `thetao_range_0_083_4326.tif` and
`so_min_0_083_4326.tif`, and the run returns normally. -/
theorem plan_three_qualified_outputs (ta la lo : Nat) (cs cs2 : List ℚ)
    (cA cB : Option Nat) (rp output_root : String) :
    savedTiffNames (batch_process_netcdfs 4326 [] planTS output_root
      [⟨rp, [FileLoad.ok
        [("thetao", ⟨[("time", ta), ("lat", la), ("lon", lo)],
          0 :: (83/1000 : ℚ) :: cs, cA⟩),
         ("so", ⟨[("time", ta), ("lat", la), ("lon", lo)],
          0 :: (83/1000 : ℚ) :: cs2, cB⟩)]]⟩]) =
      ["thetao_max_0_083_4326.tif", "thetao_range_0_083_4326.tif",
       "so_min_0_083_4326.tif"] ∧
    exceptIsOk (batch_process_netcdfs 4326 [] planTS output_root
      [⟨rp, [FileLoad.ok
        [("thetao", ⟨[("time", ta), ("lat", la), ("lon", lo)],
          0 :: (83/1000 : ℚ) :: cs, cA⟩),
         ("so", ⟨[("time", ta), ("lat", la), ("lon", lo)],
          0 :: (83/1000 : ℚ) :: cs2, cB⟩)]]⟩]) = true := by
  exact ⟨rfl, rfl⟩

end

end Proc

end Copernicus
